import Mathlib

/-!
Verification development for the HP workplace PDF parser
(`src/tools/parsers/hp_workplace.py`).

The parser is embedded shallowly over exact rationals: Python floats are
modelled as `ℚ` (the numeric literals of the source are decimal constants, so
their rational reading is exact), Python dict entries are modelled by `Val`
(a key can be absent, bound to `None`, bound to a number, or bound to a
string), and Python exceptions are modelled by `Except PyErr`.

The collaborator libraries (`tools.parsers.lib.*`: pdf/text extraction, the
regex driver `search_all_patterns`, and the pie-chart reader) are not part of
`src/`; their outputs are taken as oracle inputs in the `Doc` structure, and
the two pie-chart helpers that the control flow depends on are modelled from
the specification (see their doc comments).
-/

namespace HP

/-- A Python dict entry for one record key: the key can be absent from the
dict, bound to `None`, bound to a float, or bound to a string. -/
inductive Val where
  | missing : Val
  | null : Val
  | num : ℚ → Val
  | str : String → Val
deriving DecidableEq, Repr

/-- Python `key in dict`: true for every bound value, including `None`. -/
def Val.present : Val → Bool
  | .missing => false
  | _ => true

/-- Python truthiness of `dict.get(key)`: absent gives `None` (falsy), `None`
is falsy, `0.0` and the empty string are falsy, everything else is truthy. -/
def Val.truthy : Val → Bool
  | .missing => false
  | .null => false
  | .num q => decide (q ≠ 0)
  | .str s => decide (s ≠ "")

/-- The Python exceptions that the embedded code can raise. -/
inductive PyErr where
  | valueError : PyErr
  | keyError : PyErr
  | typeError : PyErr
  | zeroDivisionError : PyErr
deriving DecidableEq, Repr

/-- Reading a dict entry for use in arithmetic: a missing key raises
`KeyError` at the subscript, and a `None` or string operand raises
`TypeError` in the arithmetic expression. -/
def Val.toNum : Val → Except PyErr ℚ
  | .missing => .error .keyError
  | .null => .error .typeError
  | .str _ => .error .typeError
  | .num q => .ok q

/-- Python float division: raises `ZeroDivisionError` on a zero divisor. -/
def pyDiv (a b : ℚ) : Except PyErr ℚ :=
  if b = 0 then .error .zeroDivisionError else .ok (a / b)

/-- Python `round` on an exact rational: round half to even. -/
def pyRound (q : ℚ) : ℤ :=
  let f := ⌊q⌋
  if q - f < 1/2 then f
  else if 1/2 < q - f then f + 1
  else if 2 ∣ f then f else f + 1

/-- Python `round(x, 4)` on an exact rational. -/
def pyRoundTo4 (q : ℚ) : ℚ := (pyRound (q * 10000) : ℚ) / 10000

/-- The value of a list of decimal digit characters. -/
def digitsVal (l : List Char) : ℕ :=
  l.foldl (fun a c => 10 * a + (c.toNat - 48)) 0

/-- Python `float(s)` on the strings this parser can feed it: the regex
capture groups of `hp_workplace.py` produce only digits, at most one dot and
whitespace, and Python `float` strips outer whitespace, accepts `"2."` and
`".5"`, and rejects `""`, `"."` and any inner whitespace.  Returns `none`
where Python raises `ValueError`. -/
def pyFloat (s : String) : Option ℚ :=
  let t := s.trim
  match t.splitOn "." with
  | [a] =>
      if a.length ≠ 0 && a.toList.all Char.isDigit then
        some (digitsVal a.toList)
      else none
  | [a, b] =>
      if (a.length ≠ 0 || b.length ≠ 0) && a.toList.all Char.isDigit
          && b.toList.all Char.isDigit then
        some ((digitsVal a.toList : ℚ) + (digitsVal b.toList : ℚ) / (10 : ℚ) ^ b.length)
      else none
  | _ => none

/-- `float(s)` where the caller does not catch `ValueError`. -/
def pyFloatE (s : String) : Except PyErr ℚ :=
  match pyFloat s with
  | some q => .ok q
  | none => .error .valueError

/-! ## The record under construction

`DeviceCarbonFootprintData` is a dict in the source; the engine only ever
uses the keys below.  `comment` is set to the empty string on the first line
of `parse` and stays a string, so it is carried as a plain `String`. -/

structure Record where
  name : Val := .missing
  category : Val := .missing
  subcategory : Val := .missing
  gwp_total : Val := .missing
  gwp_error_ratio : Val := .missing
  report_date : Val := .missing
  weight : Val := .missing
  screen_size : Val := .missing
  assembly_location : Val := .missing
  lifetime : Val := .missing
  use_location : Val := .missing
  yearly_tec : Val := .missing
  gwp_manufacturing_ratio : Val := .missing
  gwp_use_ratio : Val := .missing
  gwp_eol_ratio : Val := .missing
  gwp_transport_ratio : Val := .missing
  gwp_chassis_ratio : Val := .missing
  gwp_display_ratio : Val := .missing
  gwp_electronics_ratio : Val := .missing
  gwp_packaging_ratio : Val := .missing
  gwp_psu_ratio : Val := .missing
  added_date : Val := .missing
  add_method : Val := .missing
  manufacturer : Val := .missing
  comment : String := ""
deriving DecidableEq, Repr

/-! ## Consistency Corrector (`hp_workplace.py` lines 246 to 278) -/

/-- The mutable state of the correction block: `result['lifetime']`,
`result['gwp_total']`, `result['comment']` and the local `elec_factor`. -/
structure FixState where
  lifetime : ℚ
  gwp_total : ℚ
  comment : String
  elec : ℚ
deriving DecidableEq, Repr

/-- The trigger of the lifetime-repair rule for one candidate factor `f`
(line 258 of the source, with `expected_lifetime = elec * L / f`). -/
def fireCond (elec L f : ℚ) : Prop :=
  (elec < 52/100 ∨ elec > 695/1000) ∧
    |elec * L / f - L| > 6/10 ∧
    |elec * L / f - (pyRound (elec * L / f) : ℚ)| < 1/10

instance (elec L f : ℚ) : Decidable (fireCond elec L f) := by
  unfold fireCond
  infer_instance

/-- Lines 256 to 262: the `for expected_factor in [0.686, 0.525]` loop.  On a
trigger the lifetime is overwritten with `round(expected_lifetime)`, the
audit note is joined onto the comment, the factor is recomputed with the new
lifetime (Python float division, which raises on a zero divisor), and the
loop breaks. -/
def fixLifetimeLoop (U T : ℚ) : List ℚ → FixState → Except PyErr FixState
  | [], s => .ok s
  | f :: fs, s =>
      if fireCond s.elec s.lifetime f then do
        let L' : ℚ := (pyRound (s.elec * s.lifetime / f) : ℚ)
        let elec' ← pyDiv (U * s.gwp_total) (L' * T)
        .ok { lifetime := L', gwp_total := s.gwp_total,
              comment := s.comment ++ " " ++ "fixed lifetime", elec := elec' }
      else fixLifetimeLoop U T fs s

/-- Lines 275 to 278: if the (possibly lifetime-corrected) factor is strictly
between 0.34 and 0.46, rescale `gwp_total` by `0.525 / elec_factor` and join
the audit note onto the comment. -/
def fixGwpTotal (s : FixState) : FixState :=
  if 34/100 < s.elec ∧ s.elec < 46/100 then
    { s with gwp_total := s.gwp_total * (525/1000 / s.elec),
             comment := s.comment ++ " " ++ "fixed gwp_total" }
  else s

/-- Lines 246 to 278: the whole correction block.  The guard on line 247 is
`'gwp_use_ratio' in result and 'yearly_tec' in result and
result.get('gwp_total')` — it does not mention `lifetime`.  Inside the guard
the code evaluates `U * G / (L * T)` left to right: the lookups of
`gwp_use_ratio` and `gwp_total` and their product come first, then the lookup
of `lifetime` (KeyError if absent), then `yearly_tec`, then the division
(ZeroDivisionError on a zero product).  `math.isfinite` is identically true
for an exact rational, so the conditional on line 250 is always taken. -/
def applyFixes (r : Record) : Except PyErr Record :=
  if r.gwp_use_ratio.present && r.yearly_tec.present && r.gwp_total.truthy then do
    let U ← r.gwp_use_ratio.toNum
    let G ← r.gwp_total.toNum
    let L ← r.lifetime.toNum
    let T ← r.yearly_tec.toNum
    let elec ← pyDiv (U * G) (L * T)
    let s ← fixLifetimeLoop U T [686/1000, 525/1000] ⟨L, G, r.comment, elec⟩
    let s := fixGwpTotal s
    .ok { r with lifetime := .num s.lifetime, gwp_total := .num s.gwp_total,
                 comment := s.comment }
  else .ok r

/-! ## Oracle inputs for one document

The regex driver `text.search_all_patterns` and the geometric pdf helpers
live in `tools.parsers.lib`, which is not under `src/`.  Per the spec (§4.1),
the driver applies the ordered pattern tier and fills each named capture
group at most once; the patterns of `_HP_DESK_PATTERNS` define exactly the
fifteen group names below, so its output is the `Extracted` structure.  For
each spatial fallback anchor, the per-occurrence result of re-running the
narrow pattern set on the neighborhood text is an `Option String` (the value
of the relevant capture group, when some pattern matched). -/

structure Extracted where
  name : Option String := none
  footprint : Option String := none
  footprint_with_error : Option String := none
  tolerance : Option String := none
  lifetime : Option String := none
  use_location : Option String := none
  energy_demand : Option String := none
  weight : Option String := none
  screen_size : Option String := none
  assembly_location : Option String := none
  date : Option String := none
  gwp_use_ratio : Option String := none
  gwp_manufacturing_ratio : Option String := none
  gwp_eol_ratio : Option String := none
  gwp_transport_ratio : Option String := none
deriving DecidableEq, Repr

/-- Python `if not extracted:` — the dict produced by the primary tier is
empty exactly when no pattern contributed any group. -/
def Extracted.isEmpty (e : Extracted) : Bool :=
  e.name.isNone && e.footprint.isNone && e.footprint_with_error.isNone &&
  e.tolerance.isNone && e.lifetime.isNone && e.use_location.isNone &&
  e.energy_demand.isNone && e.weight.isNone && e.screen_size.isNone &&
  e.assembly_location.isNone && e.date.isNone && e.gwp_use_ratio.isNone &&
  e.gwp_manufacturing_ratio.isNone && e.gwp_eol_ratio.isNone &&
  e.gwp_transport_ratio.isNone

/-- A pie-chart mapping of phase name to numeric share (a Python dict with
numeric values, as produced by the chart reader). -/
def PieMap := List (String × ℚ)
deriving DecidableEq, Repr

/-- One embedded raster image, observed through the collaborators: whether
its md5 equals the known placeholder fingerprint, and the output of
`unpie.analyze(image, ocrprofile='HP')` on it. -/
structure ImgObs where
  placeholder : Bool
  out : PieMap
deriving DecidableEq, Repr

/-- The oracle view of one input document: the primary-tier extraction, the
per-anchor spatial fallback neighborhoods (in occurrence order), the embedded
images, the chart output of the rendered lower half of page 0, the filename
and the processing date. -/
structure Doc where
  filename : String := "doc.pdf"
  today : String := "2026-10-12"
  extracted : Extracted := {}
  weightBlocks : List (Option String) := []
  screenBlocks : List (Option String) := []
  assemblyBlocks : List (Option String) := []
  lifetimeBlocks : List (Option String) := []
  useLocBlocks : List (Option String) := []
  energyBlocks : List (Option String) := []
  images : List ImgObs := []
  fullPageOut : PieMap := []
deriving DecidableEq, Repr

/-! ## Record assembly (`hp_workplace.py` lines 90 to 201) -/

/-- The `_CATEGORIES` table, in insertion order (dict order is significant:
the scan takes the first keyword contained in the name). -/
def categoriesTable : List (String × String × String) :=
  [("Monitor", "Workplace", "Monitor"),
   ("Desk", "Workplace", "Workstation"),
   ("Mobile Workstation", "Workplace", "Laptop"),
   ("Workstation", "Workplace", "Workstation"),
   ("Tower", "Workplace", "Workstation"),
   ("All-in-One", "Workplace", "Workstation"),
   ("aptop", "Workplace", "Laptop"),
   ("ook", "Workplace", "Laptop"),
   ("Tablet", "Workplace", "Tablet")]

/-- Python `keyword in name` (substring test, via `splitOn`: a nonempty
needle occurs in the haystack iff splitting on it gives more than one
piece). -/
def strContains (hay needle : String) : Bool :=
  (hay.splitOn needle).length > 1

/-- Python `pdf_filename.split('/')[-1]`. -/
def lastPathComponent (s : String) : String :=
  (s.splitOn "/").getLastD ""

/-- Lines 90 to 99: name and category from the extracted name, with the
filename fallback; the category scan uses the stripped name before the
`"HP "` prefix removal. -/
def setNameCategory (filename : String) (e : Extracted) (r : Record) : Record :=
  match e.name with
  | some n =>
      let nm := n.trim
      let r :=
        match categoriesTable.find? (fun kcs => strContains nm kcs.1) with
        | some kcs => { r with category := .str kcs.2.1, subcategory := .str kcs.2.2 }
        | none => r
      { r with name := .str (nm.replace "HP " "") }
  | none => { r with name := .str (lastPathComponent filename) }

/-- Lines 101 to 106: default category, with the subcategory chosen by
whether the primary tier extracted a screen size. -/
def setDefaultCategory (e : Extracted) (r : Record) : Record :=
  if r.category.present then r
  else
    let r := { r with category := .str "Workplace" }
    if e.screen_size.isSome then { r with subcategory := .str "Monitor" }
    else { r with subcategory := .str "Workstation" }

/-- Lines 107 to 124: the footprint.  Both `float` conversions here sit in
`try/except ValueError` blocks that set the field to `None`; the error ratio
is computed only when `gwp_total` is truthy, and `round(x, 4)` is applied. -/
def setFootprint (e : Extracted) (r : Record) : Record :=
  match e.footprint_with_error, e.tolerance with
  | some f, some t =>
      let g : Val :=
        match pyFloat f.trim with
        | some q => .num q
        | none => .null
      let er : Val :=
        if g.truthy then
          match pyFloat t.trim, g with
          | some q, .num gq => .num (pyRoundTo4 (q / gq))
          | _, _ => .null
        else .null
      { r with gwp_total := g, gwp_error_ratio := er }
  | _, _ =>
      match e.footprint with
      | some f =>
          { r with gwp_total :=
              match pyFloat f.trim with
              | some q => .num q
              | none => .null }
      | none => { r with gwp_total := .null }

/-- Lines 126 to 127: the report date. -/
def setDate (e : Extracted) (r : Record) : Record :=
  match e.date with
  | some d => { r with report_date := .str d }
  | none => r

/-- Lines 128 to 136: the weight.  The primary value goes through
`float(....replace(' ',''))` with no `try` (a `ValueError` escapes); the
fallback stores the first matched neighborhood group as a raw string,
with no numeric conversion. -/
def setWeight (doc : Doc) (r : Record) : Except PyErr Record :=
  match doc.extracted.weight with
  | some w => do
      let q ← pyFloatE (w.replace " " "")
      pure { r with weight := .num q }
  | none =>
      match doc.weightBlocks.findSome? id with
      | some s => pure { r with weight := .str s }
      | none => pure r

/-- Lines 137 to 145: the screen size.  The primary value goes through a bare
`float(...)`; the fallback stores the first matched group as a raw string. -/
def setScreen (doc : Doc) (r : Record) : Except PyErr Record :=
  match doc.extracted.screen_size with
  | some s => do
      let q ← pyFloatE s
      pure { r with screen_size := .num q }
  | none =>
      match doc.screenBlocks.findSome? id with
      | some s => pure { r with screen_size := .str s }
      | none => pure r

/-- Lines 146 to 154: the assembly location (strings on both tiers). -/
def setAssembly (doc : Doc) (r : Record) : Record :=
  match doc.extracted.assembly_location with
  | some s => { r with assembly_location := .str s }
  | none =>
      match doc.assemblyBlocks.findSome? id with
      | some s => { r with assembly_location := .str s }
      | none => r

/-- Lines 155 to 163: the lifetime.  Both tiers convert with a bare
`float(...)`. -/
def setLifetime (doc : Doc) (r : Record) : Except PyErr Record :=
  match doc.extracted.lifetime with
  | some s => do
      let q ← pyFloatE s
      pure { r with lifetime := .num q }
  | none =>
      match doc.lifetimeBlocks.findSome? id with
      | some s => do
          let q ← pyFloatE s
          pure { r with lifetime := .num q }
      | none => pure r

/-- Lines 164 to 172: the use location (strings on both tiers). -/
def setUseLocation (doc : Doc) (r : Record) : Record :=
  match doc.extracted.use_location with
  | some s => { r with use_location := .str s }
  | none =>
      match doc.useLocBlocks.findSome? id with
      | some s => { r with use_location := .str s }
      | none => r

/-- Lines 173 to 187: the yearly TEC.  On the primary tier an empty stripped
group stores `None`; on the fallback tier an occurrence whose stripped group
is empty is skipped and the scan continues, and the first nonempty one is
converted with a bare `float(...)`. -/
def setEnergy (doc : Doc) (r : Record) : Except PyErr Record :=
  match doc.extracted.energy_demand with
  | some e =>
      let s := e.trim
      if s ≠ "" then do
        let q ← pyFloatE s
        pure { r with yearly_tec := .num q }
      else pure { r with yearly_tec := .null }
  | none =>
      match doc.energyBlocks.findSome?
          (fun b => b.bind (fun s => if s.trim = "" then none else some s.trim)) with
      | some s => do
          let q ← pyFloatE s
          pure { r with yearly_tec := .num q }
      | none => pure r

/-- One textual lifecycle ratio (lines 189 to 196): a bare
`float(extracted[k]) / 100` when the group was captured, otherwise the field
is left as it was. -/
def ratioField (o : Option String) (v : Val) : Except PyErr Val :=
  match o with
  | some s => do
      let q ← pyFloatE s
      pure (Val.num (q / 100))
  | none => pure v

/-- Lines 189 to 196: the four textual lifecycle ratios. -/
def setRatios (e : Extracted) (r : Record) : Except PyErr Record := do
  let m ← ratioField e.gwp_manufacturing_ratio r.gwp_manufacturing_ratio
  let u ← ratioField e.gwp_use_ratio r.gwp_use_ratio
  let eo ← ratioField e.gwp_eol_ratio r.gwp_eol_ratio
  let t ← ratioField e.gwp_transport_ratio r.gwp_transport_ratio
  pure { r with gwp_manufacturing_ratio := m, gwp_use_ratio := u,
                gwp_eol_ratio := eo, gwp_transport_ratio := t }

/-- Lines 198 to 201: provenance fields. -/
def setProvenance (today : String) (r : Record) : Record :=
  { r with added_date := .str today, add_method := .str "HP Auto Parser",
           manufacturer := .str "HP" }

/-! ## Chart inference stage (`hp_workplace.py` lines 203 to 242) -/

/-- Line 215: `not all(key in result for key in needed_ratios)`. -/
def needsChart (r : Record) : Bool :=
  !(r.gwp_manufacturing_ratio.present && r.gwp_use_ratio.present &&
    r.gwp_eol_ratio.present && r.gwp_transport_ratio.present &&
    r.gwp_chassis_ratio.present && r.gwp_display_ratio.present &&
    r.gwp_electronics_ratio.present && r.gwp_packaging_ratio.present &&
    r.gwp_psu_ratio.present)

/-- Python `'k' in pie_data`. -/
def PieMap.hasKey (d : PieMap) (k : String) : Bool :=
  (List.lookup k d).isSome

/-- Lines 219 to 227: scan the embedded images, skipping the placeholder
fingerprint, keeping an analyze output when it is nonempty and has strictly
more keys than the current one, and breaking once the kept output contains
the `use` phase. -/
def chartScan : List ImgObs → PieMap → PieMap
  | [], pie => pie
  | img :: rest, pie =>
      if img.placeholder then chartScan rest pie
      else if !(List.isEmpty img.out) && List.length img.out > List.length pie then
        if PieMap.hasKey img.out "use" then img.out
        else chartScan rest img.out
      else chartScan rest pie

/-- Modelled from the spec: `piechart_analyser.auto_prod` is not under
`src/`.  Per §4.3, when a partial phase set is still missing the aggregate
production phase, the normalization derives it as the complement of the
other recognized phases; an empty mapping has no recognized phases to
complement and is returned unchanged. -/
def auto_prod (d : PieMap) : PieMap :=
  if List.isEmpty d then d
  else if PieMap.hasKey d "prod" then d
  else ("prod", 1 - (List.map Prod.snd d).sum) :: d

/-- Modelled from the spec: `piechart_analyser.append_to_boavizta` is not
under `src/`.  Per §4.3 and §6, the adapter merges each recognized phase
share of its mapping into the corresponding lifecycle ratio field of the
record. -/
def append_to_boavizta (r : Record) (d : PieMap) : Record :=
  let put := fun (v : Val) (k : String) =>
    match List.lookup k d with
    | some q => Val.num q
    | none => v
  { r with
      gwp_manufacturing_ratio := put r.gwp_manufacturing_ratio "prod",
      gwp_use_ratio := put r.gwp_use_ratio "use",
      gwp_eol_ratio := put r.gwp_eol_ratio "eol",
      gwp_transport_ratio := put r.gwp_transport_ratio "trans",
      gwp_chassis_ratio := put r.gwp_chassis_ratio "chassis",
      gwp_display_ratio := put r.gwp_display_ratio "display",
      gwp_electronics_ratio := put r.gwp_electronics_ratio "electronics",
      gwp_packaging_ratio := put r.gwp_packaging_ratio "packaging",
      gwp_psu_ratio := put r.gwp_psu_ratio "psu" }

/-- The final mapping the chart stage tests against the positivity guard:
image scan, then the full-page lower-half fallback when the scan found
nothing, then the production-complement normalization when the production
phase is absent (lines 218 to 238). -/
def chartPie (doc : Doc) : PieMap :=
  let pie := chartScan doc.images []
  let pie := if List.isEmpty pie then doc.fullPageOut else pie
  if PieMap.hasKey pie "prod" then pie else auto_prod pie

/-- Lines 215 to 242: the chart inference stage.  The mapping is merged into
the record only when it holds at least one strictly positive value (all the
modelled values are numeric, so the `isinstance` filter keeps every
value). -/
def chartStage (doc : Doc) (r : Record) : Record :=
  if needsChart r then
    let pie := chartPie doc
    if List.any pie (fun kv => decide (kv.2 > 0)) then append_to_boavizta r pie
    else r
  else r

/-! ## The whole `parse` generator (`hp_workplace.py` lines 78 to 280) -/

/-- Lines 79 to 201: the record as assembled from the text tiers, just before
the chart inference guard on line 215. -/
def assembleRecord (doc : Doc) : Except PyErr Record := do
  let r : Record := {}
  let r := setNameCategory doc.filename doc.extracted r
  let r := setDefaultCategory doc.extracted r
  let r := setFootprint doc.extracted r
  let r := setDate doc.extracted r
  let r ← setWeight doc r
  let r ← setScreen doc r
  let r := setAssembly doc r
  let r ← setLifetime doc r
  let r := setUseLocation doc r
  let r ← setEnergy doc r
  let r ← setRatios doc.extracted r
  pure (setProvenance doc.today r)

/-- The record built for one document when the primary tier matched. -/
def buildRecord (doc : Doc) : Except PyErr Record := do
  let r ← assembleRecord doc
  applyFixes (chartStage doc r)

/-- `parse` as a whole: the list of records the generator yields, or the
exception it raises.  An empty primary-tier extraction logs and returns with
no yield (lines 85 to 87); otherwise the single record is yielded at line
280. -/
def parse (doc : Doc) : Except PyErr (List Record) :=
  if doc.extracted.isEmpty then .ok []
  else (buildRecord doc).map (fun r => [r])

/-- The record a successful singleton parse yields. -/
def yieldedRecord (x : Except PyErr (List Record)) : Option Record :=
  match x with
  | .ok [r] => some r
  | _ => none

/-! ## Concrete inputs used by the counterexamples and witnesses -/

/-- A record in which `gwp_use_ratio`, `yearly_tec` and a nonzero `gwp_total`
are present but `lifetime` is absent, as the text tiers can produce (lifetime
pattern unmatched, all lifetime anchors unmatched). -/
def recNoLifetime : Record :=
  { gwp_use_ratio := .num (3/10), yearly_tec := .num 100, gwp_total := .num 500 }

/-- A record with all four corrector inputs present and nonzero whose implied
electricity factor is 0.05, which makes the lifetime-repair rule fire with a
repaired lifetime that rounds to zero. -/
def recTinyFactor : Record :=
  { gwp_use_ratio := .num (1/20), gwp_total := .num 1, lifetime := .num 1,
    yearly_tec := .num 1 }

/-- A document whose text matched only the `Use ...%` ratio pattern, with the
percentage 250. -/
def docUse250 : Doc := { extracted := { gwp_use_ratio := some "250" } }

/-- A document whose primary weight group matched the empty string, as the
pattern `Product weight\s*([0-9]*\.?\s*[0-9]*)\s*kg` does on the text
`Product weight kg`. -/
def docEmptyWeight : Doc := { extracted := { weight := some "" } }

/-- A document with no primary weight match whose first `weight` anchor
neighborhood matched the group `2.5`. -/
def docFallbackWeight : Doc :=
  { extracted := { date := some "2024" }, weightBlocks := [some "2.5"] }

/-- A document whose only informative image yields the all-zero mapping
`{'use': 0.0}` and whose full-page fallback yields nothing. -/
def docZeroPie : Doc :=
  { extracted := { date := some "2024" },
    images := [{ placeholder := false, out := [("use", 0)] }] }

/-- A document on which no primary pattern matched at all. -/
def docNoMatch : Doc := {}

/-- A small document used by the witnesses of the universally quantified
theorems. -/
def docPlain : Doc := { filename := "f.pdf", today := "t", extracted := { date := some "2024" } }

/-- The record `assembleRecord` produces on `docPlain`. -/
def recPlain : Record :=
  { name := .str "f.pdf", category := .str "Workplace",
    subcategory := .str "Workstation", gwp_total := .null,
    report_date := .str "2024", added_date := .str "t",
    add_method := .str "HP Auto Parser", manufacturer := .str "HP" }

/-- A document with no primary weight match whose weight anchors are one
unmatched neighborhood followed by one that matched the group `7`. -/
def docTwoAnchors : Doc :=
  { extracted := { date := some "2024" }, weightBlocks := [none, some "7"] }

/-- An extraction in which only the use ratio matched, with the value 40. -/
def extrUse40 : Extracted := { gwp_use_ratio := some "40" }

/-- The record `setRatios extrUse40` produces from the empty record. -/
def recUse40 : Record := { gwp_use_ratio := .num (2/5) }

/-! ## Helper lemmas -/

/-- The first element of a list whose image under `f` is `some` wins the
`findSome?` scan, and nothing after it matters. -/
theorem findSome?_first {α β : Type} (f : α → Option β) :
    ∀ (pre : List α) (x : α) (post : List α) (v : β),
      (∀ a ∈ pre, f a = none) → f x = some v →
      List.findSome? f (pre ++ x :: post) = some v := by
  intro pre
  induction pre with
  | nil =>
      intro x post v _ hx
      simp [List.findSome?, hx]
  | cons a l ih =>
      intro x post v hpre hx
      have ha : f a = none := hpre a (by simp)
      have hl : ∀ b ∈ l, f b = none := fun b hb => hpre b (by simp [hb])
      simp [List.findSome?, ha, ih x post v hl hx]

/-- A nonnegative parse: `pyFloat` only ever returns a nonnegative rational
(its inputs are unsigned decimal literals). -/
theorem pyFloat_nonneg (s : String) (q : ℚ) (h : pyFloat s = some q) : 0 ≤ q := by
  simp only [pyFloat] at h
  split at h
  · split at h
    · injection h with h'
      subst h'
      positivity
    · simp at h
  · split at h
    · injection h with h'
      subst h'
      positivity
    · simp at h
  · simp at h

/-- What one textual ratio conversion does: left alone when the group did not
match, and otherwise the parsed percentage divided by 100, which is
nonnegative and is at most 1 exactly when the percentage is at most 100. -/
theorem ratioField_spec (o : Option String) (v w : Val) (h : ratioField o v = .ok w) :
    (o = none → w = v) ∧
    (∀ s, o = some s → ∃ q, pyFloat s = some q ∧ w = .num (q / 100) ∧
      0 ≤ q / 100 ∧ (q ≤ 100 → q / 100 ≤ 1)) := by
  cases o with
  | none =>
      constructor
      · intro _
        unfold ratioField at h
        exact (Except.ok.inj h).symm
      · intro s hs
        cases hs
  | some s =>
      constructor
      · intro hc
        cases hc
      · intro t ht
        obtain rfl : s = t := by injection ht
        simp only [ratioField, pyFloatE] at h
        cases hq : pyFloat s with
        | none =>
            rw [hq] at h
            exact Except.noConfusion h
        | some q =>
            rw [hq] at h
            have h2 : (Except.ok (Val.num (q / 100)) : Except PyErr Val) = Except.ok w := h
            have hw : w = Val.num (q / 100) := (Except.ok.inj h2).symm
            have hq0 : 0 ≤ q := pyFloat_nonneg s q hq
            refine ⟨q, rfl, hw, by positivity, ?_⟩
            intro hle
            rw [div_le_one (by norm_num)]
            exact hle

/-- Destructuring a successful `Except` bind. -/
theorem exceptBind_ok {ε α β : Type} {x : Except ε α} {f : α → Except ε β} {b : β}
    (h : Except.bind x f = .ok b) : ∃ a, x = .ok a ∧ f a = .ok b := by
  cases x with
  | error e => exact absurd h (by simp [Except.bind])
  | ok a => exact ⟨a, rfl, by simpa [Except.bind] using h⟩

theorem pyDiv_of_ne (a b : ℚ) (h : b ≠ 0) : pyDiv a b = .ok (a / b) := by
  simp [pyDiv, h]

theorem pyDiv_of_zero (a b : ℚ) (h : b = 0) : pyDiv a b = .error .zeroDivisionError := by
  simp [pyDiv, h]

/-- `setWeight` never touches the chassis ratio. -/
theorem setWeight_chassis (doc : Doc) (r : Record) {r' : Record}
    (h : setWeight doc r = .ok r') : r'.gwp_chassis_ratio = r.gwp_chassis_ratio := by
  simp only [setWeight] at h
  split at h
  · obtain ⟨q, _, h2⟩ := exceptBind_ok h
    have h3 : (Except.ok { r with weight := .num q } : Except PyErr Record) = .ok r' := h2
    rw [← Except.ok.inj h3]
  · split at h
    · rw [← Except.ok.inj h]
    · rw [← Except.ok.inj h]

/-- `setScreen` never touches the chassis ratio. -/
theorem setScreen_chassis (doc : Doc) (r : Record) {r' : Record}
    (h : setScreen doc r = .ok r') : r'.gwp_chassis_ratio = r.gwp_chassis_ratio := by
  simp only [setScreen] at h
  split at h
  · obtain ⟨q, _, h2⟩ := exceptBind_ok h
    have h3 : (Except.ok { r with screen_size := .num q } : Except PyErr Record) = .ok r' := h2
    rw [← Except.ok.inj h3]
  · split at h
    · rw [← Except.ok.inj h]
    · rw [← Except.ok.inj h]

/-- `setLifetime` never touches the chassis ratio. -/
theorem setLifetime_chassis (doc : Doc) (r : Record) {r' : Record}
    (h : setLifetime doc r = .ok r') : r'.gwp_chassis_ratio = r.gwp_chassis_ratio := by
  simp only [setLifetime] at h
  split at h
  · obtain ⟨q, _, h2⟩ := exceptBind_ok h
    have h3 : (Except.ok { r with lifetime := .num q } : Except PyErr Record) = .ok r' := h2
    rw [← Except.ok.inj h3]
  · split at h
    · obtain ⟨q, _, h2⟩ := exceptBind_ok h
      have h3 : (Except.ok { r with lifetime := .num q } : Except PyErr Record) = .ok r' := h2
      rw [← Except.ok.inj h3]
    · rw [← Except.ok.inj h]

/-- `setEnergy` never touches the chassis ratio. -/
theorem setEnergy_chassis (doc : Doc) (r : Record) {r' : Record}
    (h : setEnergy doc r = .ok r') : r'.gwp_chassis_ratio = r.gwp_chassis_ratio := by
  simp only [setEnergy] at h
  split at h
  · split at h
    · obtain ⟨q, _, h2⟩ := exceptBind_ok h
      have h3 : (Except.ok { r with yearly_tec := .num q } : Except PyErr Record) = .ok r' := h2
      rw [← Except.ok.inj h3]
    · rw [← Except.ok.inj h]
  · split at h
    · obtain ⟨q, _, h2⟩ := exceptBind_ok h
      have h3 : (Except.ok { r with yearly_tec := .num q } : Except PyErr Record) = .ok r' := h2
      rw [← Except.ok.inj h3]
    · rw [← Except.ok.inj h]

/-- `setRatios` never touches the chassis ratio. -/
theorem setRatios_chassis (e : Extracted) (r : Record) {r' : Record}
    (h : setRatios e r = .ok r') : r'.gwp_chassis_ratio = r.gwp_chassis_ratio := by
  simp only [setRatios] at h
  obtain ⟨m, _, h⟩ := exceptBind_ok h
  obtain ⟨u, _, h⟩ := exceptBind_ok h
  obtain ⟨eo, _, h⟩ := exceptBind_ok h
  obtain ⟨t, _, h⟩ := exceptBind_ok h
  have h3 : (Except.ok
      { r with gwp_manufacturing_ratio := m, gwp_use_ratio := u, gwp_eol_ratio := eo,
               gwp_transport_ratio := t } : Except PyErr Record) = .ok r' := h
  rw [← Except.ok.inj h3]

/-- The pure assembly stages never touch the chassis ratio. -/
theorem pureStages_chassis (filename today : String) (e : Extracted) (doc : Doc) (r : Record) :
    (setNameCategory filename e r).gwp_chassis_ratio = r.gwp_chassis_ratio ∧
    (setDefaultCategory e r).gwp_chassis_ratio = r.gwp_chassis_ratio ∧
    (setFootprint e r).gwp_chassis_ratio = r.gwp_chassis_ratio ∧
    (setDate e r).gwp_chassis_ratio = r.gwp_chassis_ratio ∧
    (setAssembly doc r).gwp_chassis_ratio = r.gwp_chassis_ratio ∧
    (setUseLocation doc r).gwp_chassis_ratio = r.gwp_chassis_ratio ∧
    (setProvenance today r).gwp_chassis_ratio = r.gwp_chassis_ratio := by
  refine ⟨?_, ?_, ?_, ?_, ?_, ?_, rfl⟩
  · cases hn : e.name with
    | none => simp [setNameCategory, hn]
    | some n =>
        cases hf : categoriesTable.find? (fun kcs => strContains n.trim kcs.1) <;>
          simp [setNameCategory, hn, hf]
  · unfold setDefaultCategory
    split
    · rfl
    · split <;> rfl
  · unfold setFootprint
    split
    · rfl
    · split <;> rfl
  · unfold setDate
    split <;> rfl
  · unfold setAssembly
    split
    · rfl
    · split <;> rfl
  · unfold setUseLocation
    split
    · rfl
    · split <;> rfl

/-- A record coming out of the text-tier assembly never carries the chassis
ratio: no text pattern produces it. -/
theorem assembleRecord_chassis (doc : Doc) (r : Record)
    (h : assembleRecord doc = .ok r) : r.gwp_chassis_ratio = Val.missing := by
  simp only [assembleRecord] at h
  obtain ⟨r1, h1, h⟩ := exceptBind_ok h
  obtain ⟨r2, h2, h⟩ := exceptBind_ok h
  obtain ⟨r3, h3, h⟩ := exceptBind_ok h
  obtain ⟨r4, h4, h⟩ := exceptBind_ok h
  obtain ⟨r5, h5, h⟩ := exceptBind_ok h
  have hfin : (Except.ok (setProvenance doc.today r5) : Except PyErr Record) = .ok r := h
  rw [← Except.ok.inj hfin]
  have base := pureStages_chassis doc.filename doc.today doc.extracted doc
  rw [(base r5).2.2.2.2.2.2]
  rw [setRatios_chassis _ _ h5]
  rw [setEnergy_chassis _ _ h4]
  rw [(base r3).2.2.2.2.2.1]
  rw [setLifetime_chassis _ _ h3]
  rw [(base r2).2.2.2.2.1]
  rw [setScreen_chassis _ _ h2]
  rw [setWeight_chassis _ _ h1]
  rw [(base _).2.2.2.1, (base _).2.2.1, (base _).2.1, (base _).1]

/-! ## The claims -/

/-- Claim C1: the claim says the Consistency Corrector runs only when
`gwp_use_ratio`, `yearly_tec`, `lifetime` and `gwp_total` are all present and
nonzero, and that when any of the four is absent or zero it performs no
division and raises no error.  The guard on line 247 never checks `lifetime`:
on a record with the other three fields present (and `gwp_total` nonzero) but
`lifetime` absent, the corrector runs and raises `KeyError` at
`result['lifetime']` on line 249. -/
theorem claim1_corrector_guard_misses_lifetime :
    recNoLifetime.lifetime = Val.missing ∧
    recNoLifetime.gwp_use_ratio.present = true ∧
    recNoLifetime.yearly_tec.present = true ∧
    recNoLifetime.gwp_total.truthy = true ∧
    applyFixes recNoLifetime = .error .keyError := by
  refine ⟨rfl, rfl, rfl, ?_, ?_⟩ <;> with_unfolding_all rfl

/-- Claim C2, counterexample: on a record with implied factor 0.05 the
lifetime-repair rule fires with `round(expected_lifetime) = 0`, so the
recomputation of the factor with the new lifetime raises
`ZeroDivisionError` instead of producing the recomputed factor the claim
describes. -/
theorem claim2_repair_to_zero_counterexample :
    fireCond ((1/20 : ℚ) * 1 / (1 * 1)) 1 (686/1000) ∧
    (pyRound ((1/20 : ℚ) * 1 / (1 * 1) * 1 / (686/1000)) : ℚ) = 0 ∧
    applyFixes recTinyFactor = .error .zeroDivisionError := by
  refine ⟨of_decide_eq_true ?_, ?_, ?_⟩ <;> with_unfolding_all rfl

/-- Claim C2 (amended): for a record entering the correction stage with a
finite implied factor `elec = U * G / (L * T)`, the lifetime is overwritten
with `round(elec * L / f)` for the first `f` among 0.686 then 0.525 whose
trigger holds (the factor outside `[0.52, 0.695]`, the alternative lifetime
more than 0.6 away from the reported one and within 0.1 of an integer), the
note `fixed lifetime` is joined onto the comment and the factor is recomputed
with the new lifetime — provided the rounded lifetime is nonzero; when it
rounds to zero the recomputation raises `ZeroDivisionError`.  When no factor
triggers, the state is unchanged. -/
theorem claim2_lifetime_repair_rule (U G L T elec : ℚ) (c : String)
    (hLT : L * T ≠ 0) (helec : elec = U * G / (L * T)) :
    (fireCond elec L (686/1000) →
      ((pyRound (elec * L / (686/1000)) : ℚ) ≠ L ∧
       ((pyRound (elec * L / (686/1000)) : ℚ) ≠ 0 →
         fixLifetimeLoop U T [686/1000, 525/1000] ⟨L, G, c, elec⟩ =
           .ok ⟨(pyRound (elec * L / (686/1000)) : ℚ), G, c ++ " " ++ "fixed lifetime",
                U * G / ((pyRound (elec * L / (686/1000)) : ℚ) * T)⟩) ∧
       ((pyRound (elec * L / (686/1000)) : ℚ) = 0 →
         fixLifetimeLoop U T [686/1000, 525/1000] ⟨L, G, c, elec⟩ =
           .error .zeroDivisionError))) ∧
    (¬ fireCond elec L (686/1000) → fireCond elec L (525/1000) →
      ((pyRound (elec * L / (525/1000)) : ℚ) ≠ L ∧
       ((pyRound (elec * L / (525/1000)) : ℚ) ≠ 0 →
         fixLifetimeLoop U T [686/1000, 525/1000] ⟨L, G, c, elec⟩ =
           .ok ⟨(pyRound (elec * L / (525/1000)) : ℚ), G, c ++ " " ++ "fixed lifetime",
                U * G / ((pyRound (elec * L / (525/1000)) : ℚ) * T)⟩) ∧
       ((pyRound (elec * L / (525/1000)) : ℚ) = 0 →
         fixLifetimeLoop U T [686/1000, 525/1000] ⟨L, G, c, elec⟩ =
           .error .zeroDivisionError))) ∧
    (¬ fireCond elec L (686/1000) → ¬ fireCond elec L (525/1000) →
      fixLifetimeLoop U T [686/1000, 525/1000] ⟨L, G, c, elec⟩ = .ok ⟨L, G, c, elec⟩) := by
  have hT : T ≠ 0 := fun h0 => hLT (by rw [h0, mul_zero])
  refine ⟨?_, ?_, ?_⟩
  · intro hf
    have hne : (pyRound (elec * L / (686/1000)) : ℚ) ≠ L := by
      intro hEq
      have h2 := hf.2.1
      have h3 := hf.2.2
      rw [hEq] at h3
      linarith
    refine ⟨hne, ?_, ?_⟩
    · intro hL0
      simp only [fixLifetimeLoop]
      rw [if_pos hf, pyDiv_of_ne _ _ (mul_ne_zero hL0 hT)]
      rfl
    · intro hL0
      simp only [fixLifetimeLoop]
      rw [if_pos hf, pyDiv_of_zero _ _ (by rw [hL0, zero_mul])]
      rfl
  · intro hn1 hf
    have hne : (pyRound (elec * L / (525/1000)) : ℚ) ≠ L := by
      intro hEq
      have h2 := hf.2.1
      have h3 := hf.2.2
      rw [hEq] at h3
      linarith
    refine ⟨hne, ?_, ?_⟩
    · intro hL0
      simp only [fixLifetimeLoop]
      rw [if_neg hn1, if_pos hf, pyDiv_of_ne _ _ (mul_ne_zero hL0 hT)]
      rfl
    · intro hL0
      simp only [fixLifetimeLoop]
      rw [if_neg hn1, if_pos hf, pyDiv_of_zero _ _ (by rw [hL0, zero_mul])]
      rfl
  · intro hn1 hn2
    simp only [fixLifetimeLoop]
    rw [if_neg hn1, if_neg hn2]

/-- Witness for `claim2_lifetime_repair_rule`: at `U = 1/4`, `G = 1000`,
`L = 4`, `T = 100` the implied factor is `5/8`, inside the plausible band, so
neither candidate fires and the state is unchanged. -/
theorem claim2_lifetime_repair_rule_witness :
    fixLifetimeLoop (1/4) 100 [686/1000, 525/1000] ⟨4, 1000, "", 5/8⟩ =
      .ok ⟨4, 1000, "", 5/8⟩ :=
  (claim2_lifetime_repair_rule (1/4) 1000 4 100 (5/8) "" (by norm_num) (by norm_num)).2.2
    (of_decide_eq_true (by with_unfolding_all rfl))
    (of_decide_eq_true (by with_unfolding_all rfl))

/-- Claim C3: when the (possibly lifetime-corrected) implied factor lies
strictly between 0.34 and 0.46, `gwp_total` is multiplied by
`0.525 / elec_factor` — so recomputing the factor with the rescaled total
yields exactly 0.525 — and the note `fixed gwp_total` is joined onto the
comment; outside the open band the state is unchanged. -/
theorem claim3_total_repair_rule (U G L T elec lt : ℚ) (c : String)
    (hLT : L * T ≠ 0) (helec : elec = U * G / (L * T)) :
    ((34/100 < elec ∧ elec < 46/100) →
      fixGwpTotal ⟨lt, G, c, elec⟩ =
        ⟨lt, G * (525/1000 / elec), c ++ " " ++ "fixed gwp_total", elec⟩ ∧
      U * (G * (525/1000 / elec)) / (L * T) = 525/1000) ∧
    (¬ (34/100 < elec ∧ elec < 46/100) →
      fixGwpTotal ⟨lt, G, c, elec⟩ = ⟨lt, G, c, elec⟩) := by
  constructor
  · intro h
    have he : elec ≠ 0 := ne_of_gt (lt_trans (by norm_num) h.1)
    constructor
    · unfold fixGwpTotal
      rw [if_pos h]
    · have step : U * (G * (525/1000 / elec)) / (L * T) =
          (U * G / (L * T)) * (525/1000 / elec) := by ring
      rw [step, ← helec, mul_comm, div_mul_cancel₀ _ he]
  · intro h
    unfold fixGwpTotal
    rw [if_neg h]

/-- Witness for `claim3_total_repair_rule`: at factor `42/100` the total is
rescaled and the recomputed factor is exactly `525/1000`. -/
theorem claim3_total_repair_rule_witness :
    fixGwpTotal ⟨4, 1, "", 42/100⟩ =
      ⟨4, 1 * (525/1000 / (42/100)), "" ++ " " ++ "fixed gwp_total", 42/100⟩ ∧
    (42/100 : ℚ) * (1 * (525/1000 / (42/100))) / (1 * 1) = 525/1000 :=
  (claim3_total_repair_rule (42/100) 1 1 1 (42/100) 4 "" (by norm_num) (by norm_num)).1
    (by norm_num)

/-- Claim C4: for every document, `parse` yields zero or one record, never
more, and it yields zero (returning normally, without an exception) exactly
when the primary pattern tier matched nothing at all. -/
theorem claim4_singleton_yield (doc : Doc) :
    (∀ l, parse doc = .ok l → l.length ≤ 1) ∧
    (parse doc = .ok [] ↔ doc.extracted.isEmpty = true) := by
  by_cases h : doc.extracted.isEmpty
  · constructor
    · intro l hl
      rw [parse, if_pos h] at hl
      obtain rfl : [] = l := Except.ok.inj hl
      simp
    · rw [parse, if_pos h]
      simp [h]
  · constructor
    · intro l hl
      rw [parse, if_neg h] at hl
      cases hb : buildRecord doc with
      | error e => rw [hb] at hl; exact Except.noConfusion hl
      | ok r =>
          rw [hb] at hl
          obtain rfl : [r] = l := Except.ok.inj hl
          simp
    · rw [parse, if_neg h]
      constructor
      · intro hl
        cases hb : buildRecord doc with
        | error e => rw [hb] at hl; exact Except.noConfusion hl
        | ok r =>
            rw [hb] at hl
            exact absurd (Except.ok.inj hl) (by simp)
      · intro hemp
        exact absurd hemp (by simpa using h)

/-- Witness for `claim4_singleton_yield`: on a document matching no primary
pattern, `parse` yields the empty list. -/
theorem claim4_singleton_yield_witness : parse docNoMatch = .ok [] :=
  (claim4_singleton_yield docNoMatch).2.mpr rfl

/-- Claim C5, counterexample: a document whose text matched `Use 250%` yields
a record with `gwp_use_ratio = 2.5`, outside `[0, 1]` — the conversion is a
bare division by 100 with no bound check. -/
theorem claim5_ratio_above_one_counterexample :
    (yieldedRecord (parse docUse250)).map (fun r => r.gwp_use_ratio) =
      some (Val.num (5/2)) ∧
    ¬ ((5/2 : ℚ) ≤ 1) := by
  constructor
  · with_unfolding_all rfl
  · norm_num

/-- Claim C5 (amended): every textual lifecycle ratio field, when the group
matched, equals the parsed percentage divided by 100 — hence it is always
nonnegative, and lies in `[0, 1]` exactly when the document reports a
percentage of at most 100; when the group did not match the field is left
unchanged.  (Ratios merged from the chart adapter are collaborator-supplied
and are not bounded by the engine.) -/
theorem claim5_text_ratio_bounds (e : Extracted) (r r' : Record)
    (h : setRatios e r = .ok r') :
    ((∀ s, e.gwp_manufacturing_ratio = some s → ∃ q, pyFloat s = some q ∧
        r'.gwp_manufacturing_ratio = .num (q / 100) ∧ 0 ≤ q / 100 ∧
        (q ≤ 100 → q / 100 ≤ 1)) ∧
      (e.gwp_manufacturing_ratio = none →
        r'.gwp_manufacturing_ratio = r.gwp_manufacturing_ratio)) ∧
    ((∀ s, e.gwp_use_ratio = some s → ∃ q, pyFloat s = some q ∧
        r'.gwp_use_ratio = .num (q / 100) ∧ 0 ≤ q / 100 ∧
        (q ≤ 100 → q / 100 ≤ 1)) ∧
      (e.gwp_use_ratio = none → r'.gwp_use_ratio = r.gwp_use_ratio)) ∧
    ((∀ s, e.gwp_eol_ratio = some s → ∃ q, pyFloat s = some q ∧
        r'.gwp_eol_ratio = .num (q / 100) ∧ 0 ≤ q / 100 ∧
        (q ≤ 100 → q / 100 ≤ 1)) ∧
      (e.gwp_eol_ratio = none → r'.gwp_eol_ratio = r.gwp_eol_ratio)) ∧
    ((∀ s, e.gwp_transport_ratio = some s → ∃ q, pyFloat s = some q ∧
        r'.gwp_transport_ratio = .num (q / 100) ∧ 0 ≤ q / 100 ∧
        (q ≤ 100 → q / 100 ≤ 1)) ∧
      (e.gwp_transport_ratio = none →
        r'.gwp_transport_ratio = r.gwp_transport_ratio)) := by
  simp only [setRatios] at h
  obtain ⟨m, hm, h⟩ := exceptBind_ok h
  obtain ⟨u, hu, h⟩ := exceptBind_ok h
  obtain ⟨eo, heo, h⟩ := exceptBind_ok h
  obtain ⟨t, ht, h⟩ := exceptBind_ok h
  have hr : (Except.ok
      { r with gwp_manufacturing_ratio := m, gwp_use_ratio := u, gwp_eol_ratio := eo,
               gwp_transport_ratio := t } : Except PyErr Record) = .ok r' := h
  obtain rfl := (Except.ok.inj hr).symm
  refine ⟨⟨?_, ?_⟩, ⟨?_, ?_⟩, ⟨?_, ?_⟩, ⟨?_, ?_⟩⟩
  · intro s hs
    obtain ⟨q, hq, hw, h0, h1⟩ := (ratioField_spec _ _ _ hm).2 s hs
    exact ⟨q, hq, hw, h0, h1⟩
  · intro hnone
    exact (ratioField_spec _ _ _ hm).1 hnone
  · intro s hs
    obtain ⟨q, hq, hw, h0, h1⟩ := (ratioField_spec _ _ _ hu).2 s hs
    exact ⟨q, hq, hw, h0, h1⟩
  · intro hnone
    exact (ratioField_spec _ _ _ hu).1 hnone
  · intro s hs
    obtain ⟨q, hq, hw, h0, h1⟩ := (ratioField_spec _ _ _ heo).2 s hs
    exact ⟨q, hq, hw, h0, h1⟩
  · intro hnone
    exact (ratioField_spec _ _ _ heo).1 hnone
  · intro s hs
    obtain ⟨q, hq, hw, h0, h1⟩ := (ratioField_spec _ _ _ ht).2 s hs
    exact ⟨q, hq, hw, h0, h1⟩
  · intro hnone
    exact (ratioField_spec _ _ _ ht).1 hnone

/-- Witness for `claim5_text_ratio_bounds`: the matched group `40` gives the
use ratio `40 / 100`, nonnegative and at most 1. -/
theorem claim5_text_ratio_bounds_witness :
    ∃ q, pyFloat "40" = some q ∧ recUse40.gwp_use_ratio = .num (q / 100) ∧
      0 ≤ q / 100 ∧ (q ≤ 100 → q / 100 ≤ 1) :=
  (claim5_text_ratio_bounds extrUse40 {} recUse40
    (by with_unfolding_all rfl)).2.1.1 "40" rfl

/-- Claim C6: for each fallback-capable field, a primary-tier match fixes the
field with no reference to the anchor neighborhoods (so a fallback value can
never overwrite it), and when the primary tier left the field absent the
field takes its value from the first anchor occurrence whose neighborhood
yielded a match, whatever comes after it.  (For the energy field the code
additionally skips a matched group that strips to the empty string.) -/
theorem claim6_fallback_precedence (doc : Doc) (r : Record) :
    ((∀ w, doc.extracted.weight = some w →
        setWeight doc r =
          (pyFloatE (w.replace " " "")).map (fun q => { r with weight := .num q })) ∧
     (∀ pre s post, doc.extracted.weight = none →
        doc.weightBlocks = pre ++ some s :: post → (∀ o ∈ pre, o = none) →
        setWeight doc r = .ok { r with weight := .str s })) ∧
    ((∀ v, doc.extracted.screen_size = some v →
        setScreen doc r = (pyFloatE v).map (fun q => { r with screen_size := .num q })) ∧
     (∀ pre s post, doc.extracted.screen_size = none →
        doc.screenBlocks = pre ++ some s :: post → (∀ o ∈ pre, o = none) →
        setScreen doc r = .ok { r with screen_size := .str s })) ∧
    ((∀ v, doc.extracted.assembly_location = some v →
        setAssembly doc r = { r with assembly_location := .str v }) ∧
     (∀ pre s post, doc.extracted.assembly_location = none →
        doc.assemblyBlocks = pre ++ some s :: post → (∀ o ∈ pre, o = none) →
        setAssembly doc r = { r with assembly_location := .str s })) ∧
    ((∀ v, doc.extracted.lifetime = some v →
        setLifetime doc r = (pyFloatE v).map (fun q => { r with lifetime := .num q })) ∧
     (∀ pre s post, doc.extracted.lifetime = none →
        doc.lifetimeBlocks = pre ++ some s :: post → (∀ o ∈ pre, o = none) →
        setLifetime doc r = (pyFloatE s).map (fun q => { r with lifetime := .num q }))) ∧
    ((∀ v, doc.extracted.use_location = some v →
        setUseLocation doc r = { r with use_location := .str v }) ∧
     (∀ pre s post, doc.extracted.use_location = none →
        doc.useLocBlocks = pre ++ some s :: post → (∀ o ∈ pre, o = none) →
        setUseLocation doc r = { r with use_location := .str s })) ∧
    ((∀ v, doc.extracted.energy_demand = some v →
        setEnergy doc r =
          (if v.trim = "" then .ok { r with yearly_tec := .null }
           else (pyFloatE v.trim).map (fun q => { r with yearly_tec := .num q }))) ∧
     (∀ pre s post, doc.extracted.energy_demand = none →
        doc.energyBlocks = pre ++ some s :: post → (∀ o ∈ pre, o = none) →
        s.trim ≠ "" →
        setEnergy doc r = (pyFloatE s.trim).map (fun q => { r with yearly_tec := .num q }))) := by
  refine ⟨⟨?_, ?_⟩, ⟨?_, ?_⟩, ⟨?_, ?_⟩, ⟨?_, ?_⟩, ⟨?_, ?_⟩, ⟨?_, ?_⟩⟩
  · intro w hw
    cases hq : pyFloatE (w.replace " " "") <;>
      simp [setWeight, hw, hq, Except.map, Except.bind]
  · intro pre s post hw hb hpre
    have hfind : List.findSome? id (pre ++ some s :: post) = some s :=
      findSome?_first id pre (some s) post s (fun a ha => by rw [hpre a ha]; rfl) rfl
    simp only [setWeight, hw, hb, hfind]
    rfl
  · intro v hv
    cases hq : pyFloatE v <;> simp [setScreen, hv, hq, Except.map, Except.bind]
  · intro pre s post hv hb hpre
    have hfind : List.findSome? id (pre ++ some s :: post) = some s :=
      findSome?_first id pre (some s) post s (fun a ha => by rw [hpre a ha]; rfl) rfl
    simp only [setScreen, hv, hb, hfind]
    rfl
  · intro v hv
    simp [setAssembly, hv]
  · intro pre s post hv hb hpre
    have hfind : List.findSome? id (pre ++ some s :: post) = some s :=
      findSome?_first id pre (some s) post s (fun a ha => by rw [hpre a ha]; rfl) rfl
    simp [setAssembly, hv, hb, hfind]
  · intro v hv
    cases hq : pyFloatE v <;> simp [setLifetime, hv, hq, Except.map, Except.bind]
  · intro pre s post hv hb hpre
    have hfind : List.findSome? id (pre ++ some s :: post) = some s :=
      findSome?_first id pre (some s) post s (fun a ha => by rw [hpre a ha]; rfl) rfl
    cases hq : pyFloatE s <;> simp [setLifetime, hv, hb, hfind, hq, Except.map, Except.bind]
  · intro v hv
    simp [setUseLocation, hv]
  · intro pre s post hv hb hpre
    have hfind : List.findSome? id (pre ++ some s :: post) = some s :=
      findSome?_first id pre (some s) post s (fun a ha => by rw [hpre a ha]; rfl) rfl
    simp [setUseLocation, hv, hb, hfind]
  · intro v hv
    by_cases ht : v.trim = ""
    · simp only [setEnergy, hv, ht]
      rfl
    · cases hq : pyFloatE v.trim <;>
        simp [setEnergy, hv, ht, hq, Except.map, Except.bind]
  · intro pre s post hv hb hpre hs
    have hfind : List.findSome?
        (fun b => b.bind (fun u => if u.trim = "" then none else some u.trim))
        (pre ++ some s :: post) = some s.trim := by
      refine findSome?_first _ pre (some s) post s.trim
        (fun a ha => by rw [hpre a ha]; rfl) ?_
      simp [Option.bind, hs]
    cases hq : pyFloatE s.trim <;>
      simp [setEnergy, hv, hb, hfind, hq, Except.map, Except.bind]

/-- Witness for `claim6_fallback_precedence`: with no primary weight match,
one unmatched weight anchor followed by one matching the group `7`, the
fallback stores the string from the second occurrence. -/
theorem claim6_fallback_precedence_witness :
    setWeight docTwoAnchors {} = .ok { weight := Val.str "7" } :=
  (claim6_fallback_precedence docTwoAnchors {}).1.2 [none] "7" [] rfl rfl
    (by intro o ho; simpa using ho)

/-- Claim C7, counterexample: every image output of this document is
all-zero (and the full-page fallback is empty), yet the normalization step
derives the production phase as the complement of the recognized phases,
making it 1, so the positivity guard passes and lifecycle-phase fields are
added to the record (the use ratio, absent from the text, becomes 0). -/
theorem claim7_allzero_counterexample :
    List.all docZeroPie.images
      (fun i => List.all i.out (fun kv => decide (kv.2 = 0))) = true ∧
    docZeroPie.fullPageOut = [] ∧
    docZeroPie.extracted.gwp_use_ratio = none ∧
    (yieldedRecord (parse docZeroPie)).map (fun r => r.gwp_use_ratio) =
      some (Val.num 0) := by
  refine ⟨?_, rfl, rfl, ?_⟩ <;> with_unfolding_all rfl

/-- Claim C7 (amended): the chart mapping — after the image scan, the
full-page fallback and the production-complement normalization — is merged
into the record exactly when it contains at least one strictly positive
value; when it does not (in particular when no phase was recognized at all),
the record is returned unchanged and no exception is raised. -/
theorem claim7_merge_guard (doc : Doc) (r : Record) :
    (List.any (chartPie doc) (fun kv => decide (kv.2 > 0)) = false →
      chartStage doc r = r) ∧
    (needsChart r = true →
      List.any (chartPie doc) (fun kv => decide (kv.2 > 0)) = true →
      chartStage doc r = append_to_boavizta r (chartPie doc)) := by
  constructor
  · intro hany
    by_cases hn : needsChart r
    · simp [chartStage, hn, hany]
    · simp [chartStage, hn]
  · intro hneeds hany
    simp [chartStage, hneeds, hany]

/-- Witness for `claim7_merge_guard`: a document with no images and an empty
full-page result adds nothing to the record. -/
theorem claim7_merge_guard_witness :
    chartStage docNoMatch ({} : Record) = ({} : Record) :=
  (claim7_merge_guard docNoMatch {}).1 (by with_unfolding_all rfl)

/-- Claim C8: the claim says a numeric parse failure is set to absent and
never propagates out of `parse`.  Only the two footprint conversions sit in
`try/except`; the weight conversion on line 129 is bare, so a document whose
primary weight group matched the empty string (e.g. the text
`Product weight kg`) makes `float('')` raise `ValueError` out of `parse`. -/
theorem claim8_unprotected_float_conversion :
    docEmptyWeight.extracted.weight = some "" ∧
    parse docEmptyWeight = .error .valueError := by
  refine ⟨rfl, ?_⟩
  with_unfolding_all rfl

/-- Claim C9: the claim says weight and screen size are numeric whichever
tier produced them.  The spatial fallback on line 135 stores the matched
neighborhood text without any numeric conversion: the yielded record carries
the weight as the string `2.5`, not as a number. -/
theorem claim9_fallback_weight_stored_as_string :
    docFallbackWeight.extracted.weight = none ∧
    (yieldedRecord (parse docFallbackWeight)).map (fun r => r.weight) =
      some (Val.str "2.5") := by
  refine ⟨rfl, ?_⟩
  with_unfolding_all rfl

/-- Claim C10: the chart-inference guard asks for all nine ratio keys, the
text tiers can produce only four of them, and the chassis ratio in
particular is never set before the guard — so the chart stage is attempted
for every document; and the guard holds exactly when at least one of the
nine keys is absent. -/
theorem claim10_chart_always_attempted :
    (∀ doc r, assembleRecord doc = .ok r → needsChart r = true) ∧
    (∀ r : Record, needsChart r = true ↔
      (r.gwp_manufacturing_ratio.present = false ∨ r.gwp_use_ratio.present = false ∨
       r.gwp_eol_ratio.present = false ∨ r.gwp_transport_ratio.present = false ∨
       r.gwp_chassis_ratio.present = false ∨ r.gwp_display_ratio.present = false ∨
       r.gwp_electronics_ratio.present = false ∨ r.gwp_packaging_ratio.present = false ∨
       r.gwp_psu_ratio.present = false)) := by
  constructor
  · intro doc r h
    have hch : r.gwp_chassis_ratio = Val.missing := assembleRecord_chassis doc r h
    simp [needsChart, hch, Val.present]
  · intro r
    unfold needsChart
    constructor
    · intro h
      by_contra hc
      push_neg at hc
      simp only [Bool.not_eq_false] at hc
      rw [hc.1, hc.2.1, hc.2.2.1, hc.2.2.2.1, hc.2.2.2.2.1, hc.2.2.2.2.2.1,
        hc.2.2.2.2.2.2.1, hc.2.2.2.2.2.2.2.1, hc.2.2.2.2.2.2.2.2] at h
      simp at h
    · intro h
      rcases h with h | h | h | h | h | h | h | h | h <;> simp [h]

/-- Witness for `claim10_chart_always_attempted`: the record assembled from
`docPlain` still needs the chart stage. -/
theorem claim10_chart_always_attempted_witness : needsChart recPlain = true :=
  claim10_chart_always_attempted.1 docPlain recPlain (by with_unfolding_all rfl)

end HP
